import Mathlib

set_option linter.unusedVariables false

/-! Shallow embedding of the concurrent transaction-processing core of the
repository: the worker pool `TransactionProcessorImpl`
(internal/worker/transaction_processor.go) and the batch coordinator
`BatchProcessor` (package worker).  Go buffered channels are modelled as a
list of buffered elements together with a closed flag; a Go runtime panic
is modelled as an explicit outcome constructor carrying the runtime's
message ("close of closed channel", "send on closed channel").  Amounts
are `float64` in the source; this layer only compares them with zero and
passes them through, so they are modelled as exact rationals.  Counters
are `int64`; their overflow is unreachable at the claim level and they are
modelled as unbounded integers.  Wall-clock durations and timestamps are
opaque inputs supplied as parameters. -/

namespace Worker

/-- `domain.TransactionTask` (internal/domain/transaction_processor.go). -/
structure TransactionTask where
  id : String
  type : String
  userID : Int
  toUserID : Option Int
  amount : ℚ
  priority : Int
deriving Repr, DecidableEq

/-- `domain.TransactionResult`.  The `Error` field of the Go struct holds an
`error` value; it is modelled by the error's message string. -/
structure TransactionResult where
  taskID : String
  success : Bool
  error : Option String
  message : String
  timestamp : Int
deriving Repr, DecidableEq

/-- The mutable state of a `TransactionProcessorImpl`: the two buffered
channels (task queue and result queue, each of capacity `queueSize`) with
their closed flags, the `stopChan` closed flag, the atomic statistics
counters and the rolling `processTimes` window. -/
structure ProcState where
  numWorkers : Nat
  queueSize : Nat
  taskQueue : List TransactionTask
  taskQueueClosed : Bool
  resultQueue : List TransactionResult
  resultQueueClosed : Bool
  stopChanClosed : Bool
  totalProcessed : Int
  successfulTasks : Int
  failedTasks : Int
  activeWorkers : Int
  processTimes : List Nat
deriving Repr, DecidableEq

/-- `NewTransactionProcessor`: fresh pool with empty open channels and
zeroed statistics. -/
def NewTransactionProcessor (numWorkers queueSize : Nat) : ProcState :=
  { numWorkers := numWorkers
    queueSize := queueSize
    taskQueue := []
    taskQueueClosed := false
    resultQueue := []
    resultQueueClosed := false
    stopChanClosed := false
    totalProcessed := 0
    successfulTasks := 0
    failedTasks := 0
    activeWorkers := 0
    processTimes := [] }

/-- `Stop` (transaction_processor.go:107-123): `close(p.stopChan)`, cancel,
wait for the workers to join, then `close(p.taskQueue)` and
`close(p.resultQueue)`, in that order.  In Go, `close` on an already
closed channel panics with "close of closed channel"; the second
component is `some msg` when the call panics, and the first component is
the state at the moment of the panic (closes performed so far kept). -/
def Stop (s : ProcState) : ProcState × Option String :=
  if s.stopChanClosed then (s, some "close of closed channel")
  else
    let s1 := { s with stopChanClosed := true }
    if s1.taskQueueClosed then (s1, some "close of closed channel")
    else
      let s2 := { s1 with taskQueueClosed := true }
      if s2.resultQueueClosed then (s2, some "close of closed channel")
      else ({ s2 with resultQueueClosed := true }, none)

/-- Outcome of `SubmitTask`: the Go method returns `nil` (accepted) or an
`error` (rejected, with the error's message), or panics at runtime
(sending on a closed channel). -/
inductive SubmitResult where
  | accepted : SubmitResult
  | rejected (msg : String) : SubmitResult
  | panicked (msg : String) : SubmitResult
deriving Repr, DecidableEq

/-- Whether a `SubmitTask` outcome is a synchronous rejection. -/
def SubmitResult.isRejected : SubmitResult → Bool
  | .rejected _ => true
  | _ => false

/-- Whether a `SubmitTask` outcome is one of the two validation errors
(`InvalidTask` in the spec's taxonomy: empty id or non-positive amount). -/
def SubmitResult.isInvalidTaskError : SubmitResult → Bool
  | .rejected msg =>
      msg = "task ID cannot be empty" || msg = "task amount must be positive"
  | _ => false

/-- `SubmitTask` (transaction_processor.go:126-164).  Validation happens
before the select; the select has three cases: the send on `taskQueue`, a
5-second timer, and the caller's `ctx.Done()`.  A send on a closed channel
is always ready in a select and panics when chosen; with the channel open
the send is ready iff the buffer has space.  The blocking wait on a full
queue is modelled against the queue state as given (no concurrent
dequeue frees space), so a full open queue yields the timeout error
unless the caller's context (flag `ctxDone`) is done first.  When both
the send and `ctx.Done()` are ready Go chooses randomly; the embedding
takes the send, and no claim depends on that race. -/
def SubmitTask (ctxDone : Bool) (s : ProcState) (task : Option TransactionTask) :
    SubmitResult × ProcState :=
  match task with
  | none => (.rejected "task cannot be nil", s)
  | some t =>
    if t.id = "" then (.rejected "task ID cannot be empty", s)
    else if t.amount ≤ 0 then (.rejected "task amount must be positive", s)
    else if s.taskQueueClosed then (.panicked "send on closed channel", s)
    else if s.taskQueue.length < s.queueSize then
      (.accepted, { s with taskQueue := s.taskQueue ++ [t] })
    else if ctxDone then (.rejected "context canceled", s)
    else (.rejected "queue is full, task submission timeout", s)

/-- Outcome of a single call into the injected `domain.TransactionService`
collaborator: success (`nil` error), a domain error, or a Go panic raised
inside the collaborator. -/
inductive CollabResult where
  | ok : CollabResult
  | err (msg : String) : CollabResult
  | panics (msg : String) : CollabResult
deriving Repr, DecidableEq

/-- The injected collaborator (`domain.TransactionService`): `Credit`,
`Debit` and `Transfer`, each returning an error or panicking. -/
structure TransactionService where
  credit : Int → ℚ → CollabResult
  debit : Int → ℚ → CollabResult
  transfer : Int → Int → ℚ → CollabResult

/-- A recorded invocation of one of the collaborator's operations. -/
inductive CollabCall where
  | credit (userID : Int) (amount : ℚ) : CollabCall
  | debit (userID : Int) (amount : ℚ) : CollabCall
  | transfer (fromID toID : Int) (amount : ℚ) : CollabCall
deriving Repr, DecidableEq

/-- Value of the local `err` variable after the `switch task.Type` dispatch
in `processTask`, or the fact that the dispatched call panicked. -/
inductive DispatchResult where
  | noErr : DispatchResult
  | someErr (msg : String) : DispatchResult
  | panicked (msg : String) : DispatchResult
deriving Repr, DecidableEq

/-- Lift a collaborator call outcome into the `err` variable. -/
def CollabResult.toDispatch : CollabResult → DispatchResult
  | .ok => .noErr
  | .err msg => .someErr msg
  | .panics msg => .panicked msg

/-- The `switch task.Type` of `processTask` (transaction_processor.go:238-251),
returning the `err` outcome together with the collaborator calls made:
credit and debit call the collaborator directly; transfer first requires
`ToUserID != nil`, failing without any call otherwise; an unknown type
fails without any call. -/
def dispatchTask (svc : TransactionService) (t : TransactionTask) :
    DispatchResult × List CollabCall :=
  if t.type = "credit" then
    ((svc.credit t.userID t.amount).toDispatch, [.credit t.userID t.amount])
  else if t.type = "debit" then
    ((svc.debit t.userID t.amount).toDispatch, [.debit t.userID t.amount])
  else if t.type = "transfer" then
    match t.toUserID with
    | none => (.someErr "transfer requires to_user_id", [])
    | some to_ =>
        ((svc.transfer t.userID to_ t.amount).toDispatch,
          [.transfer t.userID to_ t.amount])
  else (.someErr ("unknown transaction type: " ++ t.type), [])

/-- The rolling-latency update of `processTask`
(transaction_processor.go:273-277): append the duration, then drop the
oldest entry when the length exceeds 1000. -/
def recordProcessTime (times : List Nat) (d : Nat) : List Nat :=
  let t := times ++ [d]
  if 1000 < t.length then t.drop 1 else t

/-- The non-blocking result publish of `processTask`
(transaction_processor.go:283-288): `select` with a `default` branch.  A
send on an open channel with buffer space enqueues; a full open buffer
takes the `default` branch and drops the result; a send on a closed
channel is ready in a select and panics when chosen (second component
`true`). -/
def publishResult (s : ProcState) (r : TransactionResult) : ProcState × Bool :=
  if s.resultQueueClosed then (s, true)
  else if s.resultQueue.length < s.queueSize then
    ({ s with resultQueue := s.resultQueue ++ [r] }, false)
  else (s, false)

/-- Outcome of `processTask`: normal completion with the updated processor
state, the constructed `TransactionResult` and the collaborator calls
made, or an unrecovered panic (the state reflects the deferred
`activeWorkers` decrement, which runs during unwinding). -/
inductive ProcOutcome where
  | done (s : ProcState) (r : TransactionResult) (calls : List CollabCall) : ProcOutcome
  | panicked (s : ProcState) (calls : List CollabCall) : ProcOutcome
deriving Repr, DecidableEq

/-- The processor state carried by a `processTask` outcome. -/
def ProcOutcome.state : ProcOutcome → ProcState
  | .done s _ _ => s
  | .panicked s _ => s

/-- The constructed result of a `processTask` outcome, if it completed. -/
def ProcOutcome.result? : ProcOutcome → Option TransactionResult
  | .done _ r _ => some r
  | .panicked _ _ => none

/-- The collaborator calls made during a `processTask` outcome. -/
def ProcOutcome.calls : ProcOutcome → List CollabCall
  | .done _ _ calls => calls
  | .panicked _ calls => calls

/-- Whether a `processTask` outcome is a normal completion. -/
def ProcOutcome.isDone : ProcOutcome → Bool
  | .done _ _ _ => true
  | .panicked _ _ => false

/-- `worker.processTask` (transaction_processor.go:214-297) on a dequeued
task: increment `activeWorkers` (decremented again by `defer` on every
exit, including panic unwinding), dispatch by type, then — only when the
dispatch did not panic, since the function contains no `recover` — record
the per-task result, bump exactly one of the failed/successful counters
and `totalProcessed`, append the measured duration `d` to the rolling
window, and attempt the non-blocking result publish.  `ts` is the value
of `time.Now().Unix()` taken when the result struct is built. -/
def processTask (svc : TransactionService) (t : TransactionTask) (d : Nat)
    (ts : Int) (s : ProcState) : ProcOutcome :=
  let s1 := { s with activeWorkers := s.activeWorkers + 1 }
  let dc := dispatchTask svc t
  match dc.1 with
  | .panicked _ =>
      .panicked { s1 with activeWorkers := s1.activeWorkers - 1 } dc.2
  | .someErr msg =>
      let r : TransactionResult :=
        { taskID := t.id, success := false, error := some msg, message := msg,
          timestamp := ts }
      let s2 := { s1 with
        failedTasks := s1.failedTasks + 1
        totalProcessed := s1.totalProcessed + 1
        processTimes := recordProcessTime s1.processTimes d }
      match publishResult s2 r with
      | (s3, true) =>
          .panicked { s3 with activeWorkers := s3.activeWorkers - 1 } dc.2
      | (s3, false) =>
          .done { s3 with activeWorkers := s3.activeWorkers - 1 } r dc.2
  | .noErr =>
      let r : TransactionResult :=
        { taskID := t.id, success := true, error := none,
          message := "Task processed successfully", timestamp := ts }
      let s2 := { s1 with
        successfulTasks := s1.successfulTasks + 1
        totalProcessed := s1.totalProcessed + 1
        processTimes := recordProcessTime s1.processTimes d }
      match publishResult s2 r with
      | (s3, true) =>
          .panicked { s3 with activeWorkers := s3.activeWorkers - 1 } dc.2
      | (s3, false) =>
          .done { s3 with activeWorkers := s3.activeWorkers - 1 } r dc.2

/-- Outcome of one worker loop (`worker.start`,
transaction_processor.go:191-211) draining a sequence of dequeued tasks:
either the loop survives every task, or an unrecovered panic escapes
`processTask` and kills the goroutine (and, Go panics being fatal when
unhandled, the process).  Carries the final state, the results
constructed for completed tasks in order, and all collaborator calls. -/
inductive RunOutcome where
  | finished (s : ProcState) (results : List TransactionResult)
      (calls : List CollabCall) : RunOutcome
  | crashed (s : ProcState) (results : List TransactionResult)
      (calls : List CollabCall) : RunOutcome
deriving Repr, DecidableEq

/-- Final processor state of a worker run. -/
def RunOutcome.state : RunOutcome → ProcState
  | .finished s _ _ => s
  | .crashed s _ _ => s

/-- Results constructed during a worker run. -/
def RunOutcome.results : RunOutcome → List TransactionResult
  | .finished _ rs _ => rs
  | .crashed _ rs _ => rs

/-- Collaborator calls made during a worker run. -/
def RunOutcome.calls : RunOutcome → List CollabCall
  | .finished _ _ cs => cs
  | .crashed _ _ cs => cs

/-- Whether the worker goroutine died from an unrecovered panic. -/
def RunOutcome.isCrashed : RunOutcome → Bool
  | .finished _ _ _ => false
  | .crashed _ _ _ => true

/-- A worker loop processing dequeued tasks in order, each with its
measured duration and result timestamp.  There is no `recover` anywhere
in the loop or in `processTask`, so the first panic ends the run: later
tasks are not processed. -/
def workerRun (svc : TransactionService) :
    List (TransactionTask × Nat × Int) → ProcState → RunOutcome
  | [], s => .finished s [] []
  | (t, d, ts) :: rest, s =>
    match processTask svc t d ts s with
    | .done s' r calls =>
      match workerRun svc rest s' with
      | .finished s'' rs cs => .finished s'' (r :: rs) (calls ++ cs)
      | .crashed s'' rs cs => .crashed s'' (r :: rs) (calls ++ cs)
    | .panicked s' calls => .crashed s' [] calls

/-- The collaborator calls that draining the currently queued tasks would
make: workers invoke the collaborator only through `processTask`'s
dispatch, on tasks dequeued from `taskQueue`. -/
def queueCollabCalls (svc : TransactionService) (s : ProcState) : List CollabCall :=
  (s.taskQueue.map (fun t => (dispatchTask svc t).2)).flatten

/-- `worker.BatchError` (metrics.go embedding of the batch coordinator). -/
structure BatchError where
  taskID : String
  error : String
deriving Repr, DecidableEq

/-- The mutable part of the collector's `BatchResult` during the
`ResultLoop`: the two counters and the accumulated `errors` slice. -/
structure BatchState where
  successfulTasks : Int
  failedTasks : Int
  errors : List BatchError
deriving Repr, DecidableEq

/-- One event received by the collector's `select`: a (possibly nil)
result from `resultChan`, a (possibly nil) error from `errorChan`, or
`batchCtx.Done()` firing (deadline expiry or cancellation).  Nil values
arrive when the channels are closed after all batch workers exit. -/
inductive BatchMsg where
  | result (r : TransactionResult) : BatchMsg
  | nilResult : BatchMsg
  | errMsg (msg : String) : BatchMsg
  | nilErr : BatchMsg
  | ctxDone : BatchMsg
deriving Repr, DecidableEq

/-- Effect of a non-nil result on the collector state
(`ProcessBatch`, the `case res := <-resultChan` branch): a success bumps
`SuccessfulTasks`; a failure bumps `FailedTasks` and appends a
`BatchError` built from the result's task id and message. -/
def applyResult (st : BatchState) (r : TransactionResult) : BatchState :=
  if r.success then { st with successfulTasks := st.successfulTasks + 1 }
  else
    { st with
      failedTasks := st.failedTasks + 1
      errors := st.errors ++ [{ taskID := r.taskID, error := r.message }] }

/-- Effect of a non-nil submission error on the collector state
(the `case err := <-errorChan` branch): bump `FailedTasks` and append a
`BatchError` with task id "unknown". -/
def applyError (st : BatchState) (msg : String) : BatchState :=
  { st with
    failedTasks := st.failedTasks + 1
    errors := st.errors ++ [{ taskID := "unknown", error := msg }] }

/-- The collector's `ResultLoop` over the sequence of events it receives,
for a batch of `total` tasks.  After every non-Done event the loop checks
`SuccessfulTasks + FailedTasks >= len(tasks)` and breaks when it holds.
On `batchCtx.Done()` it executes
`FailedTasks += len(tasks) - SuccessfulTasks - FailedTasks` and breaks
out of the loop immediately (no further listening). -/
def collectResults (total : Int) : List BatchMsg → BatchState → BatchState
  | [], st => st
  | .ctxDone :: _, st =>
      { st with
        failedTasks :=
          st.failedTasks + (total - st.successfulTasks - st.failedTasks) }
  | .result r :: rest, st =>
      let st' := applyResult st r
      if total ≤ st'.successfulTasks + st'.failedTasks then st'
      else collectResults total rest st'
  | .nilResult :: rest, st =>
      if total ≤ st.successfulTasks + st.failedTasks then st
      else collectResults total rest st
  | .errMsg msg :: rest, st =>
      let st' := applyError st msg
      if total ≤ st'.successfulTasks + st'.failedTasks then st'
      else collectResults total rest st'
  | .nilErr :: rest, st =>
      if total ≤ st.successfulTasks + st.failedTasks then st
      else collectResults total rest st

/-- Whether the `ResultLoop`, run on this event sequence, terminates
through the `batchCtx.Done()` branch (deadline expiry before all tasks
report) rather than by the all-tasks-reported check.  Defined in parallel
with `collectResults`. -/
def endsByTimeout (total : Int) : List BatchMsg → BatchState → Bool
  | [], _ => false
  | .ctxDone :: _, _ => true
  | .result r :: rest, st =>
      let st' := applyResult st r
      if total ≤ st'.successfulTasks + st'.failedTasks then false
      else endsByTimeout total rest st'
  | .nilResult :: rest, st =>
      if total ≤ st.successfulTasks + st.failedTasks then false
      else endsByTimeout total rest st
  | .errMsg msg :: rest, st =>
      let st' := applyError st msg
      if total ≤ st'.successfulTasks + st'.failedTasks then false
      else endsByTimeout total rest st'
  | .nilErr :: rest, st =>
      if total ≤ st.successfulTasks + st.failedTasks then false
      else endsByTimeout total rest st

/-- `worker.BatchResult` (the aggregate returned by `ProcessBatch`). -/
structure BatchResult where
  batchID : String
  totalTasks : Int
  successfulTasks : Int
  failedTasks : Int
  processingTime : Nat
  errors : List BatchError
  completedAt : Int
deriving Repr, DecidableEq

/-- `generateBatchID`: "batch_" followed by `time.Now().UnixNano()`. -/
def generateBatchID (nanos : Int) : String :=
  "batch_" ++ toString nanos

/-- `BatchProcessor.ProcessBatch` (functional core): an empty slice
returns a zero-valued `BatchResult` and `nil` error immediately; a
non-empty slice runs the collector loop over the events it receives and
returns the aggregate and `nil` error — both `return` statements of the
Go method return a `nil` error.  `nanos` feeds the batch id, `elapsed`
is the measured `time.Since(startTime)`, and `now` the completion
timestamp; the events received by the collector are supplied as `msgs`. -/
def ProcessBatch (tasks : List TransactionTask) (msgs : List BatchMsg)
    (nanos : Int) (elapsed : Nat) (now : Int) : BatchResult × Option String :=
  if tasks.length = 0 then
    ({ batchID := generateBatchID nanos
       totalTasks := 0
       successfulTasks := 0
       failedTasks := 0
       processingTime := 0
       errors := []
       completedAt := now }, none)
  else
    let st := collectResults (tasks.length : Int) msgs
      { successfulTasks := 0, failedTasks := 0, errors := [] }
    ({ batchID := generateBatchID nanos
       totalTasks := (tasks.length : Int)
       successfulTasks := st.successfulTasks
       failedTasks := st.failedTasks
       processingTime := elapsed
       errors := st.errors
       completedAt := now }, none)

/-- What a batch worker sends after handling one task: a fabricated
result on `resultChan`, a wrapped submission error on `errorChan`, or a
propagated panic from `SubmitTask`. -/
inductive WorkerSend where
  | sendResult (r : TransactionResult) : WorkerSend
  | sendError (msg : String) : WorkerSend
  | panicked (msg : String) : WorkerSend
deriving Repr, DecidableEq

/-- One iteration of `BatchProcessor.worker` on a task received from
`taskChan` (metrics.go embedding, lines 484-505 of the batch file): call
the pool's `SubmitTask`; on error, wrap it and send it on `errorChan`;
on success, immediately construct a `TransactionResult` with
`Success: true` and message "Task submitted successfully" — without
waiting for, or consulting, the actual processing outcome — and send it
on `resultChan`. -/
def batchWorker (ctxDone : Bool) (s : ProcState) (t : TransactionTask)
    (now : Int) : WorkerSend × ProcState :=
  let sub := SubmitTask ctxDone s (some t)
  match sub.1 with
  | .accepted =>
      (.sendResult
        { taskID := t.id, success := true, error := none,
          message := "Task submitted successfully", timestamp := now }, sub.2)
  | .rejected msg =>
      (.sendError ("failed to submit task " ++ t.id ++ ": " ++ msg), sub.2)
  | .panicked msg => (.panicked msg, sub.2)

/-- `Start` (transaction_processor.go:83-104): spawns the worker goroutines
and the result consumer.  It touches no channel or counter state of the
pool, so on the modelled state it is the identity. -/
def Start (s : ProcState) : ProcState := s

/-- A valid credit task used as a concrete input. -/
def task1 : TransactionTask :=
  { id := "t1", type := "credit", userID := 1, toUserID := none,
    amount := 1, priority := 0 }

/-- A second valid credit task used as a concrete input. -/
def task2 : TransactionTask :=
  { id := "t2", type := "credit", userID := 2, toUserID := none,
    amount := 2, priority := 0 }

/-- A collaborator that always succeeds. -/
def okService : TransactionService :=
  { credit := fun _ _ => .ok
    debit := fun _ _ => .ok
    transfer := fun _ _ _ => .ok }

/-- A collaborator that always panics. -/
def panickingService : TransactionService :=
  { credit := fun _ _ => .panics "collaborator panic"
    debit := fun _ _ => .panics "collaborator panic"
    transfer := fun _ _ _ => .panics "collaborator panic" }

/-- C1, counterexample: on a freshly started pool the first `Stop` returns
without panic, but the second `Stop` executes `close(p.stopChan)` on an
already closed channel and panics with "close of closed channel" — so
calling stop() twice is not safe, contrary to the claim. -/
theorem stop_twice_panics_cex :
    (Stop (Start (NewTransactionProcessor 5 100))).2 = none ∧
    (Stop (Stop (Start (NewTransactionProcessor 5 100))).1).2 =
      some "close of closed channel" := by
  decide

/-- C1, amended: on any pool state whose stop channel and queues are still
open (as after `Start`), the first `Stop` succeeds without panic; the
second `Stop` panics with "close of closed channel" at the stop channel,
before reaching the queues, and in particular leaves the state unchanged
(the queues are not double-closed only because the call dies first). -/
theorem stop_once_then_stop_panics (s : ProcState)
    (h1 : s.stopChanClosed = false) (h2 : s.taskQueueClosed = false)
    (h3 : s.resultQueueClosed = false) :
    (Stop s).2 = none ∧
    (Stop (Stop s).1).2 = some "close of closed channel" ∧
    (Stop (Stop s).1).1 = (Stop s).1 := by
  simp [Stop, h1, h2, h3]

/-- Witness for the amended C1 theorem at a concrete started pool. -/
theorem stop_once_then_stop_panics_witness :
    (Stop (Start (NewTransactionProcessor 5 100))).2 = none ∧
    (Stop (Stop (Start (NewTransactionProcessor 5 100))).1).2 =
      some "close of closed channel" ∧
    (Stop (Stop (Start (NewTransactionProcessor 5 100))).1).1 =
      (Stop (Start (NewTransactionProcessor 5 100))).1 :=
  stop_once_then_stop_panics (Start (NewTransactionProcessor 5 100)) rfl rfl rfl

/-- C2, counterexample: after `Stop` has completed, submitting the valid
task `task1` does not return an error at all: the select's send case on
the closed `taskQueue` is chosen and panics with "send on closed
channel", so the claimed synchronous `Closed` error is never produced. -/
theorem submit_after_stop_panics_cex :
    (SubmitTask false (Stop (NewTransactionProcessor 5 100)).1 (some task1)).1
      = SubmitResult.panicked "send on closed channel" ∧
    SubmitResult.isRejected
      (SubmitTask false (Stop (NewTransactionProcessor 5 100)).1 (some task1)).1
      = false := by
  decide

/-- C2, amended: for every valid task (non-empty id, positive amount),
submitting after the task queue has been closed by `stop()` panics with
"send on closed channel" instead of returning a `Closed` error; the
state is unchanged, so the task is never enqueued and never processed. -/
theorem submit_after_stop_panics (ctxDone : Bool) (s : ProcState)
    (t : TransactionTask) (hid : ¬t.id = "") (hamt : 0 < t.amount)
    (hclosed : s.taskQueueClosed = true) :
    SubmitTask ctxDone s (some t) =
      (.panicked "send on closed channel", s) := by
  simp [SubmitTask, hid, hclosed, not_le.mpr hamt]

/-- Witness for the amended C2 theorem: a stopped pool and the valid task
`task1`. -/
theorem submit_after_stop_panics_witness :
    SubmitTask false (Stop (NewTransactionProcessor 5 100)).1 (some task1) =
      (.panicked "send on closed channel",
        (Stop (NewTransactionProcessor 5 100)).1) :=
  submit_after_stop_panics false (Stop (NewTransactionProcessor 5 100)).1 task1
    (by decide) (by decide) rfl

/-- C6: a task with an empty id or non-positive amount is rejected
synchronously by one of the two validation errors (the spec's
`InvalidTask`), the processor state — in particular the task queue — is
unchanged, and draining the queue afterwards makes exactly the
collaborator calls it would have made before, so the collaborator is
never invoked for the rejected task. -/
theorem submit_invalid_task_rejected (svc : TransactionService)
    (ctxDone : Bool) (s : ProcState) (t : TransactionTask)
    (h : t.id = "" ∨ t.amount ≤ 0) :
    SubmitResult.isInvalidTaskError (SubmitTask ctxDone s (some t)).1 = true ∧
    (SubmitTask ctxDone s (some t)).2 = s ∧
    queueCollabCalls svc (SubmitTask ctxDone s (some t)).2 =
      queueCollabCalls svc s := by
  rcases h with h | h
  · simp [SubmitTask, h, SubmitResult.isInvalidTaskError]
  · by_cases hid : t.id = ""
    · simp [SubmitTask, hid, SubmitResult.isInvalidTaskError]
    · simp [SubmitTask, hid, h, SubmitResult.isInvalidTaskError]

/-- A task with an empty id, used as a concrete invalid input. -/
def invalidTask : TransactionTask :=
  { id := "", type := "credit", userID := 1, toUserID := none,
    amount := 5, priority := 0 }

/-- Witness for C6: the empty-id task against a fresh pool. -/
theorem submit_invalid_task_rejected_witness :
    SubmitResult.isInvalidTaskError
      (SubmitTask false (NewTransactionProcessor 5 100) (some invalidTask)).1
      = true ∧
    (SubmitTask false (NewTransactionProcessor 5 100) (some invalidTask)).2 =
      NewTransactionProcessor 5 100 ∧
    queueCollabCalls okService
      (SubmitTask false (NewTransactionProcessor 5 100) (some invalidTask)).2 =
      queueCollabCalls okService (NewTransactionProcessor 5 100) :=
  submit_invalid_task_rejected okService false (NewTransactionProcessor 5 100)
    invalidTask (Or.inl rfl)

/-- C3, counterexample: with a collaborator that panics, a worker given two
credit tasks crashes on the first one: the run ends in a crash, no
`TransactionResult` is constructed for either task, the failed counter is
never incremented, and the second task is never processed — there is no
`recover` in `processTask` or the worker loop. -/
theorem collaborator_panic_cex :
    (workerRun panickingService [(task1, 1, 0), (task2, 1, 0)]
        (NewTransactionProcessor 5 100)).isCrashed = true ∧
    (workerRun panickingService [(task1, 1, 0), (task2, 1, 0)]
        (NewTransactionProcessor 5 100)).results = [] ∧
    (workerRun panickingService [(task1, 1, 0), (task2, 1, 0)]
        (NewTransactionProcessor 5 100)).state.failedTasks = 0 ∧
    (workerRun panickingService [(task1, 1, 0), (task2, 1, 0)]
        (NewTransactionProcessor 5 100)).state.totalProcessed = 0 ∧
    (workerRun panickingService [(task1, 1, 0), (task2, 1, 0)]
        (NewTransactionProcessor 5 100)).calls = [.credit 1 1] := by
  decide

/-- C3, amended: when the dispatched collaborator call panics, the panic is
not recovered: the worker run crashes on that task, no Result is recorded
for it, the statistics counters are left untouched, and no subsequent
task of that worker is processed (one bad task does kill the worker, and
an unhandled Go panic kills the process). -/
theorem collaborator_panic_kills_worker (svc : TransactionService)
    (t : TransactionTask) (d : Nat) (ts : Int)
    (rest : List (TransactionTask × Nat × Int)) (s : ProcState) (msg : String)
    (hpanic : (dispatchTask svc t).1 = .panicked msg) :
    (workerRun svc ((t, d, ts) :: rest) s).isCrashed = true ∧
    (workerRun svc ((t, d, ts) :: rest) s).results = [] ∧
    (workerRun svc ((t, d, ts) :: rest) s).state.totalProcessed =
      s.totalProcessed ∧
    (workerRun svc ((t, d, ts) :: rest) s).state.failedTasks = s.failedTasks ∧
    (workerRun svc ((t, d, ts) :: rest) s).state.successfulTasks =
      s.successfulTasks := by
  have hpt : processTask svc t d ts s =
      .panicked { s with activeWorkers := s.activeWorkers + 1 - 1 }
        (dispatchTask svc t).2 := by
    simp only [processTask, hpanic]
  simp [workerRun, hpt, RunOutcome.isCrashed, RunOutcome.results,
    RunOutcome.state]

/-- Witness for the amended C3 theorem: the always-panicking collaborator,
`task1`, one further queued task and a fresh pool. -/
theorem collaborator_panic_kills_worker_witness :
    (workerRun panickingService [(task1, 1, 0), (task2, 1, 0)]
        (NewTransactionProcessor 5 100)).isCrashed = true ∧
    (workerRun panickingService [(task1, 1, 0), (task2, 1, 0)]
        (NewTransactionProcessor 5 100)).results = [] ∧
    (workerRun panickingService [(task1, 1, 0), (task2, 1, 0)]
        (NewTransactionProcessor 5 100)).state.totalProcessed =
      (NewTransactionProcessor 5 100).totalProcessed ∧
    (workerRun panickingService [(task1, 1, 0), (task2, 1, 0)]
        (NewTransactionProcessor 5 100)).state.failedTasks =
      (NewTransactionProcessor 5 100).failedTasks ∧
    (workerRun panickingService [(task1, 1, 0), (task2, 1, 0)]
        (NewTransactionProcessor 5 100)).state.successfulTasks =
      (NewTransactionProcessor 5 100).successfulTasks :=
  collaborator_panic_kills_worker panickingService task1 1 0 [(task2, 1, 0)]
    (NewTransactionProcessor 5 100) "collaborator panic" (by decide)

/-- Helper: the non-blocking result publish only touches the result queue;
every other field of the processor state is unchanged. -/
theorem publishResult_fields (s : ProcState) (r : TransactionResult)
    (s' : ProcState) (b : Bool) (h : publishResult s r = (s', b)) :
    s'.successfulTasks = s.successfulTasks ∧
    s'.failedTasks = s.failedTasks ∧
    s'.totalProcessed = s.totalProcessed ∧
    s'.activeWorkers = s.activeWorkers ∧
    s'.processTimes = s.processTimes := by
  simp only [publishResult] at h
  split at h
  · injection h with h1 h2
    subst h1
    exact ⟨rfl, rfl, rfl, rfl, rfl⟩
  · split at h <;>
      (injection h with h1 h2
       subst h1
       exact ⟨rfl, rfl, rfl, rfl, rfl⟩)

/-- Helper: one `processTask` step preserves the counter equation
`successful + failed = totalProcessed`: the error path bumps failed and
total, the success path bumps successful and total, and the panic path
bumps neither. -/
theorem processTask_preserves_sum (svc : TransactionService)
    (t : TransactionTask) (d : Nat) (ts : Int) (s : ProcState)
    (h : s.successfulTasks + s.failedTasks = s.totalProcessed) :
    (processTask svc t d ts s).state.successfulTasks +
      (processTask svc t d ts s).state.failedTasks =
      (processTask svc t d ts s).state.totalProcessed := by
  simp only [processTask]
  rcases hdc : (dispatchTask svc t).1 with _ | msg | msg
  · simp only [hdc]
    split <;>
      next s3 heq =>
        obtain ⟨h1, h2, h3, _, _⟩ := publishResult_fields _ _ _ _ heq
        simp [ProcOutcome.state, h1, h2, h3]
        omega
  · simp only [hdc]
    split <;>
      next s3 heq =>
        obtain ⟨h1, h2, h3, _, _⟩ := publishResult_fields _ _ _ _ heq
        simp [ProcOutcome.state, h1, h2, h3]
        omega
  · simp only [hdc, ProcOutcome.state]
    simpa using h

/-- Helper: a whole worker run preserves the counter equation. -/
theorem workerRun_preserves_sum (svc : TransactionService)
    (runs : List (TransactionTask × Nat × Int)) :
    ∀ s : ProcState, s.successfulTasks + s.failedTasks = s.totalProcessed →
      (workerRun svc runs s).state.successfulTasks +
        (workerRun svc runs s).state.failedTasks =
        (workerRun svc runs s).state.totalProcessed := by
  induction runs with
  | nil => intro s h; simpa [workerRun, RunOutcome.state] using h
  | cons p rest ih =>
    intro s h
    obtain ⟨t, d, ts⟩ := p
    have hp := processTask_preserves_sum svc t d ts s h
    unfold workerRun
    cases hpt : processTask svc t d ts s with
    | done s' r calls =>
      rw [hpt] at hp
      have h' := ih s' hp
      cases hw : workerRun svc rest s' with
      | finished s'' rs cs =>
          rw [hw] at h'
          simp only [hw]
          simpa [RunOutcome.state] using h'
      | crashed s'' rs cs =>
          rw [hw] at h'
          simp only [hw]
          simpa [RunOutcome.state] using h'
    | panicked s' calls =>
      rw [hpt] at hp
      simpa [RunOutcome.state] using hp

/-- C5: starting from a fresh pool, after any sequence of processed tasks
(each bumping exactly one of the successful/failed counters and the total
counter once, with panicking tasks bumping nothing) the quiescent
statistics satisfy `successful + failed = totalProcessed`. -/
theorem stats_sum_invariant (svc : TransactionService) (n q : Nat)
    (runs : List (TransactionTask × Nat × Int)) :
    (workerRun svc runs (NewTransactionProcessor n q)).state.successfulTasks +
      (workerRun svc runs (NewTransactionProcessor n q)).state.failedTasks =
      (workerRun svc runs (NewTransactionProcessor n q)).state.totalProcessed :=
  workerRun_preserves_sum svc runs (NewTransactionProcessor n q)
    (by simp [NewTransactionProcessor])

/-- C7: a transfer task with `ToUserID == nil` completes as a failed result
carrying the "transfer requires to_user_id" error (the spec's
`InvalidTask`), increments the failed counter, leaves the successful
counter unchanged, and makes no collaborator call at all. -/
theorem transfer_missing_counterparty (svc : TransactionService)
    (t : TransactionTask) (d : Nat) (ts : Int) (s : ProcState)
    (htype : t.type = "transfer") (hto : t.toUserID = none)
    (hq : s.resultQueueClosed = false) :
    (processTask svc t d ts s).isDone = true ∧
    (processTask svc t d ts s).result? =
      some { taskID := t.id, success := false,
             error := some "transfer requires to_user_id",
             message := "transfer requires to_user_id", timestamp := ts } ∧
    (processTask svc t d ts s).state.failedTasks = s.failedTasks + 1 ∧
    (processTask svc t d ts s).state.successfulTasks = s.successfulTasks ∧
    (processTask svc t d ts s).calls = [] := by
  have hdc : (dispatchTask svc t).1 = .someErr "transfer requires to_user_id" := by
    simp [dispatchTask, htype, hto]
  have hdc2 : (dispatchTask svc t).2 = [] := by
    simp [dispatchTask, htype, hto]
  simp only [processTask, hdc, hdc2]
  split
  · next s3 heq =>
      exfalso
      simp only [publishResult] at heq
      split at heq
      · next hcl => simp [hq] at hcl
      · split at heq <;> simp at heq
  · next s3 heq =>
      obtain ⟨h1, h2, h3, h4, h5⟩ := publishResult_fields _ _ _ _ heq
      simp [ProcOutcome.isDone, ProcOutcome.result?, ProcOutcome.state,
        ProcOutcome.calls, h1, h2]

/-- A transfer task with a missing counterparty, used as a concrete input. -/
def transferTaskNoCounterparty : TransactionTask :=
  { id := "t3", type := "transfer", userID := 1, toUserID := none,
    amount := 3, priority := 0 }

/-- Witness for C7 at a concrete transfer task and fresh pool. -/
theorem transfer_missing_counterparty_witness :
    (processTask okService transferTaskNoCounterparty 1 0
        (NewTransactionProcessor 5 100)).isDone = true ∧
    (processTask okService transferTaskNoCounterparty 1 0
        (NewTransactionProcessor 5 100)).result? =
      some { taskID := transferTaskNoCounterparty.id, success := false,
             error := some "transfer requires to_user_id",
             message := "transfer requires to_user_id", timestamp := 0 } ∧
    (processTask okService transferTaskNoCounterparty 1 0
        (NewTransactionProcessor 5 100)).state.failedTasks =
      (NewTransactionProcessor 5 100).failedTasks + 1 ∧
    (processTask okService transferTaskNoCounterparty 1 0
        (NewTransactionProcessor 5 100)).state.successfulTasks =
      (NewTransactionProcessor 5 100).successfulTasks ∧
    (processTask okService transferTaskNoCounterparty 1 0
        (NewTransactionProcessor 5 100)).calls = [] :=
  transfer_missing_counterparty okService transferTaskNoCounterparty 1 0
    (NewTransactionProcessor 5 100) rfl rfl rfl

/-- Helper: the rolling-window update keeps the length at most 1000
whenever it was at most 1000 before. -/
theorem recordProcessTime_length (times : List Nat) (d : Nat)
    (h : times.length ≤ 1000) : (recordProcessTime times d).length ≤ 1000 := by
  simp only [recordProcessTime]
  split <;> simp_all

/-- C9: every `processTask` completion preserves the bound: if the rolling
latency window held at most 1000 durations before the task, it holds at
most 1000 after it — the worker appends the task's duration and drops the
oldest entry when the length exceeds 1000 (panicking tasks leave the
window untouched). -/
theorem latency_window_bounded (svc : TransactionService)
    (t : TransactionTask) (d : Nat) (ts : Int) (s : ProcState)
    (h : s.processTimes.length ≤ 1000) :
    (processTask svc t d ts s).state.processTimes.length ≤ 1000 := by
  simp only [processTask]
  rcases hdc : (dispatchTask svc t).1 with _ | msg | msg
  · simp only [hdc]
    split <;>
      next s3 heq =>
        obtain ⟨_, _, _, _, h5⟩ := publishResult_fields _ _ _ _ heq
        simp only [ProcOutcome.state, h5]
        simpa using recordProcessTime_length s.processTimes d h
  · simp only [hdc]
    split <;>
      next s3 heq =>
        obtain ⟨_, _, _, _, h5⟩ := publishResult_fields _ _ _ _ heq
        simp only [ProcOutcome.state, h5]
        simpa using recordProcessTime_length s.processTimes d h
  · simp only [hdc, ProcOutcome.state]
    simpa using h

/-- Witness for C9 at a concrete task and fresh pool. -/
theorem latency_window_bounded_witness :
    (processTask okService task1 1 0
        (NewTransactionProcessor 5 100)).state.processTimes.length ≤ 1000 :=
  latency_window_bounded okService task1 1 0 (NewTransactionProcessor 5 100)
    (by decide)

/-- Helper: if the collector's `ResultLoop` terminates through the
`batchCtx.Done()` branch, then — because that branch executes
`FailedTasks += total - SuccessfulTasks - FailedTasks` — the final
collector state satisfies `successful + failed = total` exactly. -/
theorem collectResults_timeout_sum (total : Int) :
    ∀ (msgs : List BatchMsg) (st : BatchState),
      endsByTimeout total msgs st = true →
      (collectResults total msgs st).successfulTasks +
        (collectResults total msgs st).failedTasks = total := by
  intro msgs
  induction msgs with
  | nil => intro st h; simp [endsByTimeout] at h
  | cons m rest ih =>
    intro st h
    cases m with
    | ctxDone =>
        simp only [collectResults]
        ring
    | result r =>
        rw [endsByTimeout] at h
        rw [collectResults]
        split at h
        · simp at h
        · next hlt => rw [if_neg hlt]; exact ih _ h
    | nilResult =>
        rw [endsByTimeout] at h
        rw [collectResults]
        split at h
        · simp at h
        · next hlt => rw [if_neg hlt]; exact ih _ h
    | errMsg msg =>
        rw [endsByTimeout] at h
        rw [collectResults]
        split at h
        · simp at h
        · next hlt => rw [if_neg hlt]; exact ih _ h
    | nilErr =>
        rw [endsByTimeout] at h
        rw [collectResults]
        split at h
        · simp at h
        · next hlt => rw [if_neg hlt]; exact ih _ h

/-- C4, counterexample: a batch of two tasks whose deadline fires before
any task reports (the collector receives only `ctxDone`) yields
`successful + failed = 2 = total`: the unreported tasks are topped up
into the failed counter, so the claimed strict inequality
`successful + failed < total` is false. -/
theorem batch_timeout_strict_lt_cex :
    endsByTimeout 2 [BatchMsg.ctxDone]
      { successfulTasks := 0, failedTasks := 0, errors := [] } = true ∧
    (ProcessBatch [task1, task2] [BatchMsg.ctxDone] 1 7 0).1.totalTasks = 2 ∧
    (ProcessBatch [task1, task2] [BatchMsg.ctxDone] 1 7 0).1.successfulTasks +
      (ProcessBatch [task1, task2] [BatchMsg.ctxDone] 1 7 0).1.failedTasks = 2 ∧
    ¬((ProcessBatch [task1, task2] [BatchMsg.ctxDone] 1 7 0).1.successfulTasks +
        (ProcessBatch [task1, task2] [BatchMsg.ctxDone] 1 7 0).1.failedTasks <
      (ProcessBatch [task1, task2] [BatchMsg.ctxDone] 1 7 0).1.totalTasks) := by
  decide

/-- C4, amended: for every non-empty batch whose collector loop ends
through the deadline branch before all tasks report, the tasks not yet
reporting are counted as failed and the returned `BatchResult` satisfies
`successful + failed = total` (equality, not the claimed strict
inequality). -/
theorem batch_timeout_counts_all (tasks : List TransactionTask)
    (msgs : List BatchMsg) (nanos : Int) (elapsed : Nat) (now : Int)
    (hne : tasks ≠ [])
    (hto : endsByTimeout (tasks.length : Int) msgs
      { successfulTasks := 0, failedTasks := 0, errors := [] } = true) :
    (ProcessBatch tasks msgs nanos elapsed now).1.successfulTasks +
      (ProcessBatch tasks msgs nanos elapsed now).1.failedTasks =
      (ProcessBatch tasks msgs nanos elapsed now).1.totalTasks := by
  have hlen : ¬tasks.length = 0 := by simpa using hne
  simp only [ProcessBatch, hlen, if_false]
  exact collectResults_timeout_sum _ msgs _ hto

/-- Witness for the amended C4 theorem at a concrete two-task batch whose
collector only receives the deadline event. -/
theorem batch_timeout_counts_all_witness :
    (ProcessBatch [task1, task2] [BatchMsg.ctxDone] 1 7 0).1.successfulTasks +
      (ProcessBatch [task1, task2] [BatchMsg.ctxDone] 1 7 0).1.failedTasks =
      (ProcessBatch [task1, task2] [BatchMsg.ctxDone] 1 7 0).1.totalTasks :=
  batch_timeout_counts_all [task1, task2] [BatchMsg.ctxDone] 1 7 0
    (by decide) (by decide)

/-- C8: whenever the pool accepts a batch worker's submission, the batch
worker immediately sends a fabricated `TransactionResult` with
`Success: true` and message "Task submitted successfully" on the result
channel — for every processor state and every task, independently of any
processing outcome — and the collector counts every such result into
`SuccessfulTasks`, so the batch's successful count tallies accepted
submissions, not completed transactions. -/
theorem batch_worker_optimistic_success (ctxDone : Bool) (s : ProcState)
    (t : TransactionTask) (now : Int)
    (h : (SubmitTask ctxDone s (some t)).1 = .accepted) :
    (batchWorker ctxDone s t now).1 = .sendResult
      { taskID := t.id, success := true, error := none,
        message := "Task submitted successfully", timestamp := now } ∧
    ∀ st : BatchState,
      (applyResult st
        { taskID := t.id, success := true, error := none,
          message := "Task submitted successfully",
          timestamp := now }).successfulTasks = st.successfulTasks + 1 := by
  constructor
  · simp [batchWorker, h]
  · intro st; simp [applyResult]

/-- Witness for C8: a fresh pool accepts `task1` and the batch worker sends
the optimistic success result. -/
theorem batch_worker_optimistic_success_witness :
    (batchWorker false (NewTransactionProcessor 5 100) task1 0).1 = .sendResult
      { taskID := task1.id, success := true, error := none,
        message := "Task submitted successfully", timestamp := 0 } ∧
    ∀ st : BatchState,
      (applyResult st
        { taskID := task1.id, success := true, error := none,
          message := "Task submitted successfully",
          timestamp := 0 }).successfulTasks = st.successfulTasks + 1 :=
  batch_worker_optimistic_success false (NewTransactionProcessor 5 100) task1 0
    (by decide)

/-- C10: `ProcessBatch` returns a `nil` error on every input — the empty
batch short-circuit and the main path are the only two `return`
statements and both pass `nil`; a caller can never observe a batch-level
hard failure through the error value. -/
theorem processBatch_error_always_nil (tasks : List TransactionTask)
    (msgs : List BatchMsg) (nanos : Int) (elapsed : Nat) (now : Int) :
    (ProcessBatch tasks msgs nanos elapsed now).2 = none := by
  unfold ProcessBatch
  split <;> rfl

end Worker
